import Mathlib

/-!
Shallow embedding of the SecureFlow scan-orchestration core
(`src/secureflow_core/scanner.py`, `core.py`, `plugins.py`, `utils.py`).

External effects (subprocess launches, the filesystem, the wall clock and
the `hashlib.md5` digest) are modelled as explicit oracle parameters; the
control flow, data shapes and string constants are translated from the
Python source.
-/

namespace SecureFlow

/-- Severity enumeration from `scanner.py` (`class Severity(Enum)`). -/
inductive Severity where
  | CRITICAL
  | HIGH
  | MEDIUM
  | LOW
  | INFO
deriving DecidableEq, Repr

/-- Vulnerability dataclass from `scanner.py`.  Python floats (`cvss_score`)
and wall-clock values are modelled as integers; optional fields are
`Option`.  `references` defaults to `[]` as in `__post_init__`. -/
structure Vulnerability where
  id : String
  title : String
  description : String
  severity : Severity
  cwe : Option String := none
  cvss_score : Option Int := none
  file_path : Option String := none
  line_number : Option Nat := none
  tool : Option String := none
  rule_id : Option String := none
  recommendation : Option String := none
  references : List String := []
deriving DecidableEq, Repr

/-- ScanResult dataclass from `scanner.py`.  The free-form metadata dict
holds only string values in this code base, so it is modelled as an
association list; `metadata` defaults to `[]` as in `__post_init__`. -/
structure ScanResult where
  tool : String
  target : String
  scan_type : String
  vulnerabilities : List Vulnerability
  scan_duration : Int
  timestamp : String
  metadata : List (String × String) := []
deriving DecidableEq, Repr

/-- The fixed severity table of `Scanner._map_severity`. -/
def severity_map : List (String × Severity) :=
  [("CRITICAL", Severity.CRITICAL),
   ("HIGH", Severity.HIGH),
   ("MEDIUM", Severity.MEDIUM),
   ("LOW", Severity.LOW),
   ("INFO", Severity.INFO),
   ("WARNING", Severity.MEDIUM),
   ("ERROR", Severity.HIGH)]

/-- Python `str.upper()` on the ASCII severity strings this code base
handles, written over the character list so that it reduces in the kernel. -/
def str_upper (s : String) : String := ⟨s.data.map Char.toUpper⟩

/-- `Scanner._map_severity`: `severity_map.get(severity_str.upper(), Severity.INFO)`. -/
def map_severity (severity_str : String) : Severity :=
  (severity_map.lookup (str_upper severity_str)).getD Severity.INFO

/-- The dictionary returned by `Scanner._run_command`. -/
structure CmdOut where
  returncode : Int
  stdout : String
  stderr : String
deriving DecidableEq, Repr

/-- Per-call oracle for one backend-tool runner: the outcome of the
external process launch (`Except.error` = `create_subprocess_exec`
raised), the behaviour of the tool's `_parse_*_output` helper on the
captured stdout (`Except.error` = the parser raised), the filesystem
lookups some runners perform, and the two `time.time()` readings taken at
entry and at result construction. -/
structure ToolEnv where
  launch : Except String CmdOut := Except.ok ⟨0, "", ""⟩
  parse : String → Except String (List Vulnerability) := fun _ => Except.ok []
  req_files : List String := []
  path_exists : Bool := false
  startTime : Int := 0
  endTime : Int := 0
  nowString : String := ""

/-- `Scanner._run_command`: runs the subprocess and never raises; a launch
failure is converted into `returncode=-1`, empty stdout and the message on
stderr. -/
def run_command (launch : Except String CmdOut) : CmdOut :=
  match launch with
  | Except.ok r => r
  | Except.error e => ⟨-1, "", e⟩

/-- `Scanner._create_error_result`: empty findings, `error`/`status=failed`
metadata, duration measured up to the failure. -/
def create_error_result (tool target scan_type error : String) (env : ToolEnv) : ScanResult :=
  { tool, target, scan_type,
    vulnerabilities := [],
    scan_duration := env.endTime - env.startTime,
    timestamp := env.nowString,
    metadata := [("error", error), ("status", "failed")] }

/-- `Scanner._create_empty_result`: empty findings with `status=no_issues_found`. -/
def create_empty_result (tool target scan_type : String) (env : ToolEnv) : ScanResult :=
  { tool, target, scan_type,
    vulnerabilities := [],
    scan_duration := env.endTime - env.startTime,
    timestamp := env.nowString,
    metadata := [("status", "no_issues_found")] }

/-- Scanning configuration (`ScanningConfig` in `config.py`) restricted to
the fields the scan engine reads, with the pydantic defaults. -/
structure ScanningConfig where
  enable_sast : Bool := true
  enable_sca : Bool := true
  enable_secrets : Bool := true
  enable_iac : Bool := true
  enable_container : Bool := true
  sast_tool : String := "semgrep"
  sca_tool : String := "safety"
  secrets_tool : String := "trufflehog"
  iac_tool : String := "checkov"
  container_tool : String := "trivy"
  exclude_paths : List String := [".git", ".venv", "node_modules", "__pycache__", "*.pyc", "*.log"]

/-- The default configuration (`ScanningConfig()` with no overrides). -/
def defaultScanningConfig : ScanningConfig := {}

/-- `Scanner._run_semgrep`.  The second component records the external
commands launched during the call. -/
def run_semgrep (cfg : ScanningConfig) (target_path scan_type : String) (env : ToolEnv) :
    ScanResult × List (List String) :=
  let cmd := ["semgrep", "--config=auto", "--json", "--exclude",
              String.intercalate " " cfg.exclude_paths, target_path]
  let result := run_command env.launch
  match env.parse result.stdout with
  | Except.ok vulnerabilities =>
      ({ tool := "semgrep", target := target_path, scan_type,
         vulnerabilities,
         scan_duration := env.endTime - env.startTime,
         timestamp := env.nowString,
         metadata := [("command", String.intercalate " " cmd)] }, [cmd])
  | Except.error e => (create_error_result "semgrep" target_path scan_type e env, [cmd])

/-- `Scanner._run_bandit`. -/
def run_bandit (cfg : ScanningConfig) (target_path scan_type : String) (env : ToolEnv) :
    ScanResult × List (List String) :=
  let cmd := ["bandit", "-r", target_path, "-f", "json", "--skip",
              String.intercalate "," cfg.exclude_paths]
  let result := run_command env.launch
  match env.parse result.stdout with
  | Except.ok vulnerabilities =>
      ({ tool := "bandit", target := target_path, scan_type,
         vulnerabilities,
         scan_duration := env.endTime - env.startTime,
         timestamp := env.nowString,
         metadata := [("command", String.intercalate " " cmd)] }, [cmd])
  | Except.error e => (create_error_result "bandit" target_path scan_type e env, [cmd])

/-- `Scanner._run_sonarqube` (placeholder implementation, no subprocess). -/
def run_sonarqube (_cfg : ScanningConfig) (target_path scan_type : String) (env : ToolEnv) :
    ScanResult × List (List String) :=
  ({ tool := "sonarqube", target := target_path, scan_type,
     vulnerabilities := [],
     scan_duration := env.endTime - env.startTime,
     timestamp := env.nowString,
     metadata := [("status", "placeholder"), ("note", "SonarQube integration pending")] }, [])

/-- `Scanner._run_safety`: looks for requirement files first and returns an
empty result when none are found. -/
def run_safety (_cfg : ScanningConfig) (target_path scan_type : String) (env : ToolEnv) :
    ScanResult × List (List String) :=
  match env.req_files with
  | [] => (create_empty_result "safety" target_path scan_type env, [])
  | req_file :: _ =>
    let cmd := ["safety", "check", "--json", "--file", req_file]
    let result := run_command env.launch
    match env.parse result.stdout with
    | Except.ok vulnerabilities =>
        ({ tool := "safety", target := target_path, scan_type,
           vulnerabilities,
           scan_duration := env.endTime - env.startTime,
           timestamp := env.nowString,
           metadata := [("requirements_file", req_file)] }, [cmd])
    | Except.error e => (create_error_result "safety" target_path scan_type e env, [cmd])

/-- `Scanner._run_pip_audit`. -/
def run_pip_audit (_cfg : ScanningConfig) (target_path scan_type : String) (env : ToolEnv) :
    ScanResult × List (List String) :=
  let cmd := ["pip-audit", "--format=json", "--desc"]
  let result := run_command env.launch
  match env.parse result.stdout with
  | Except.ok vulnerabilities =>
      ({ tool := "pip-audit", target := target_path, scan_type,
         vulnerabilities,
         scan_duration := env.endTime - env.startTime,
         timestamp := env.nowString }, [cmd])
  | Except.error e => (create_error_result "pip-audit" target_path scan_type e env, [cmd])

/-- `Scanner._run_npm_audit`: `path_exists` is the `package.json` existence
check; when it fails an empty result is returned. -/
def run_npm_audit (_cfg : ScanningConfig) (target_path scan_type : String) (env : ToolEnv) :
    ScanResult × List (List String) :=
  if env.path_exists then
    let cmd := ["npm", "audit", "--json"]
    let result := run_command env.launch
    match env.parse result.stdout with
    | Except.ok vulnerabilities =>
        ({ tool := "npm-audit", target := target_path, scan_type,
           vulnerabilities,
           scan_duration := env.endTime - env.startTime,
           timestamp := env.nowString }, [cmd])
    | Except.error e => (create_error_result "npm-audit" target_path scan_type e env, [cmd])
  else (create_empty_result "npm-audit" target_path scan_type env, [])

/-- `Scanner._run_truffhog` (note the result's tool name is `trufflehog`). -/
def run_truffhog (_cfg : ScanningConfig) (target_path scan_type : String) (env : ToolEnv) :
    ScanResult × List (List String) :=
  let cmd := ["trufflehog", "--json", "filesystem", target_path]
  let result := run_command env.launch
  match env.parse result.stdout with
  | Except.ok vulnerabilities =>
      ({ tool := "trufflehog", target := target_path, scan_type,
         vulnerabilities,
         scan_duration := env.endTime - env.startTime,
         timestamp := env.nowString }, [cmd])
  | Except.error e => (create_error_result "trufflehog" target_path scan_type e env, [cmd])

/-- `Scanner._run_gitleaks`. -/
def run_gitleaks (_cfg : ScanningConfig) (target_path scan_type : String) (env : ToolEnv) :
    ScanResult × List (List String) :=
  let cmd := ["gitleaks", "detect", "--source", target_path, "--report-format", "json"]
  let result := run_command env.launch
  match env.parse result.stdout with
  | Except.ok vulnerabilities =>
      ({ tool := "gitleaks", target := target_path, scan_type,
         vulnerabilities,
         scan_duration := env.endTime - env.startTime,
         timestamp := env.nowString }, [cmd])
  | Except.error e => (create_error_result "gitleaks" target_path scan_type e env, [cmd])

/-- `Scanner._run_detect_secrets`. -/
def run_detect_secrets (_cfg : ScanningConfig) (target_path scan_type : String) (env : ToolEnv) :
    ScanResult × List (List String) :=
  let cmd := ["detect-secrets", "scan", "--force-use-all-plugins", target_path]
  let result := run_command env.launch
  match env.parse result.stdout with
  | Except.ok vulnerabilities =>
      ({ tool := "detect-secrets", target := target_path, scan_type,
         vulnerabilities,
         scan_duration := env.endTime - env.startTime,
         timestamp := env.nowString }, [cmd])
  | Except.error e => (create_error_result "detect-secrets" target_path scan_type e env, [cmd])

/-- `Scanner._run_checkov`. -/
def run_checkov (_cfg : ScanningConfig) (target_path scan_type : String) (env : ToolEnv) :
    ScanResult × List (List String) :=
  let cmd := ["checkov", "-d", target_path, "--output", "json", "--quiet"]
  let result := run_command env.launch
  match env.parse result.stdout with
  | Except.ok vulnerabilities =>
      ({ tool := "checkov", target := target_path, scan_type,
         vulnerabilities,
         scan_duration := env.endTime - env.startTime,
         timestamp := env.nowString }, [cmd])
  | Except.error e => (create_error_result "checkov" target_path scan_type e env, [cmd])

/-- `Scanner._run_tfsec`. -/
def run_tfsec (_cfg : ScanningConfig) (target_path scan_type : String) (env : ToolEnv) :
    ScanResult × List (List String) :=
  let cmd := ["tfsec", target_path, "--format", "json"]
  let result := run_command env.launch
  match env.parse result.stdout with
  | Except.ok vulnerabilities =>
      ({ tool := "tfsec", target := target_path, scan_type,
         vulnerabilities,
         scan_duration := env.endTime - env.startTime,
         timestamp := env.nowString }, [cmd])
  | Except.error e => (create_error_result "tfsec" target_path scan_type e env, [cmd])

/-- `Scanner._run_terrascan`. -/
def run_terrascan (_cfg : ScanningConfig) (target_path scan_type : String) (env : ToolEnv) :
    ScanResult × List (List String) :=
  let cmd := ["terrascan", "scan", "-d", target_path, "-o", "json"]
  let result := run_command env.launch
  match env.parse result.stdout with
  | Except.ok vulnerabilities =>
      ({ tool := "terrascan", target := target_path, scan_type,
         vulnerabilities,
         scan_duration := env.endTime - env.startTime,
         timestamp := env.nowString }, [cmd])
  | Except.error e => (create_error_result "terrascan" target_path scan_type e env, [cmd])

/-- `Scanner._run_trivy`: `path_exists` is the `Path(target).exists()` check
choosing between filesystem and image mode. -/
def run_trivy (_cfg : ScanningConfig) (target scan_type : String) (env : ToolEnv) :
    ScanResult × List (List String) :=
  let cmd := if env.path_exists
    then ["trivy", "fs", "--format", "json", target]
    else ["trivy", "image", "--format", "json", target]
  let result := run_command env.launch
  match env.parse result.stdout with
  | Except.ok vulnerabilities =>
      ({ tool := "trivy", target, scan_type,
         vulnerabilities,
         scan_duration := env.endTime - env.startTime,
         timestamp := env.nowString }, [cmd])
  | Except.error e => (create_error_result "trivy" target scan_type e env, [cmd])

/-- `Scanner._run_clair` (placeholder implementation, no subprocess). -/
def run_clair (_cfg : ScanningConfig) (target scan_type : String) (env : ToolEnv) :
    ScanResult × List (List String) :=
  ({ tool := "clair", target, scan_type,
     vulnerabilities := [],
     scan_duration := env.endTime - env.startTime,
     timestamp := env.nowString,
     metadata := [("status", "placeholder"), ("note", "Clair integration pending")] }, [])

/-- `Scanner._run_anchore` (placeholder implementation, no subprocess). -/
def run_anchore (_cfg : ScanningConfig) (target scan_type : String) (env : ToolEnv) :
    ScanResult × List (List String) :=
  ({ tool := "anchore", target, scan_type,
     vulnerabilities := [],
     scan_duration := env.endTime - env.startTime,
     timestamp := env.nowString,
     metadata := [("status", "placeholder"), ("note", "Anchore integration pending")] }, [])

/-- `Scanner.scan_source_code`: membership check on the keys of the `sast`
tool table (`semgrep`, `bandit`, `sonarqube`) followed by dict dispatch; an
unsupported tool raises `ValueError` (modelled as `Except.error`).  `envs`
supplies the oracle for each tool. -/
def scan_source_code (cfg : ScanningConfig) (target_path : String) (envs : String → ToolEnv) :
    Except String (ScanResult × List (List String)) :=
  if cfg.sast_tool = "semgrep" then
    Except.ok (run_semgrep cfg target_path "sast" (envs "semgrep"))
  else if cfg.sast_tool = "bandit" then
    Except.ok (run_bandit cfg target_path "sast" (envs "bandit"))
  else if cfg.sast_tool = "sonarqube" then
    Except.ok (run_sonarqube cfg target_path "sast" (envs "sonarqube"))
  else Except.error ("Unsupported SAST tool: " ++ cfg.sast_tool)

/-- `Scanner.scan_dependencies`: tool table `safety`, `pip-audit`, `npm-audit`. -/
def scan_dependencies (cfg : ScanningConfig) (target_path : String) (envs : String → ToolEnv) :
    Except String (ScanResult × List (List String)) :=
  if cfg.sca_tool = "safety" then
    Except.ok (run_safety cfg target_path "sca" (envs "safety"))
  else if cfg.sca_tool = "pip-audit" then
    Except.ok (run_pip_audit cfg target_path "sca" (envs "pip-audit"))
  else if cfg.sca_tool = "npm-audit" then
    Except.ok (run_npm_audit cfg target_path "sca" (envs "npm-audit"))
  else Except.error ("Unsupported SCA tool: " ++ cfg.sca_tool)

/-- `Scanner.scan_secrets`: the tool table's keys are `truffhog` (sic, the
dict key in `scanner.py` line 142 is misspelled), `gitleaks` and
`detect-secrets`. -/
def scan_secrets (cfg : ScanningConfig) (target_path : String) (envs : String → ToolEnv) :
    Except String (ScanResult × List (List String)) :=
  if cfg.secrets_tool = "truffhog" then
    Except.ok (run_truffhog cfg target_path "secrets" (envs "truffhog"))
  else if cfg.secrets_tool = "gitleaks" then
    Except.ok (run_gitleaks cfg target_path "secrets" (envs "gitleaks"))
  else if cfg.secrets_tool = "detect-secrets" then
    Except.ok (run_detect_secrets cfg target_path "secrets" (envs "detect-secrets"))
  else Except.error ("Unsupported secrets tool: " ++ cfg.secrets_tool)

/-- `Scanner.scan_infrastructure`: tool table `checkov`, `tfsec`, `terrascan`. -/
def scan_infrastructure (cfg : ScanningConfig) (target_path : String) (envs : String → ToolEnv) :
    Except String (ScanResult × List (List String)) :=
  if cfg.iac_tool = "checkov" then
    Except.ok (run_checkov cfg target_path "iac" (envs "checkov"))
  else if cfg.iac_tool = "tfsec" then
    Except.ok (run_tfsec cfg target_path "iac" (envs "tfsec"))
  else if cfg.iac_tool = "terrascan" then
    Except.ok (run_terrascan cfg target_path "iac" (envs "terrascan"))
  else Except.error ("Unsupported IaC tool: " ++ cfg.iac_tool)

/-- `Scanner.scan_container`: tool table `trivy`, `clair`, `anchore`. -/
def scan_container (cfg : ScanningConfig) (image_or_dockerfile : String) (envs : String → ToolEnv) :
    Except String (ScanResult × List (List String)) :=
  if cfg.container_tool = "trivy" then
    Except.ok (run_trivy cfg image_or_dockerfile "container" (envs "trivy"))
  else if cfg.container_tool = "clair" then
    Except.ok (run_clair cfg image_or_dockerfile "container" (envs "clair"))
  else if cfg.container_tool = "anchore" then
    Except.ok (run_anchore cfg image_or_dockerfile "container" (envs "anchore"))
  else Except.error ("Unsupported container tool: " ++ cfg.container_tool)

/-- `SecureFlow.scan_repository` (`core.py`): builds the per-category result
map in order sast, sca, secrets, iac, container; the container entry is
added only when a `Dockerfile` exists in the repository.  `envs` maps a
category and tool name to the run's oracle; a `ValueError` raised by a
category dispatcher propagates (`Except.error`). -/
def scan_repository (cfg : ScanningConfig) (repo_path : String)
    (envs : String → String → ToolEnv) (dockerfile_exists : Bool) :
    Except String (List (String × ScanResult)) := do
  let results : List (String × ScanResult) := []
  let results ← if cfg.enable_sast then do
      let r ← scan_source_code cfg repo_path (envs "sast")
      pure (results ++ [("sast", r.1)])
    else pure results
  let results ← if cfg.enable_sca then do
      let r ← scan_dependencies cfg repo_path (envs "sca")
      pure (results ++ [("sca", r.1)])
    else pure results
  let results ← if cfg.enable_secrets then do
      let r ← scan_secrets cfg repo_path (envs "secrets")
      pure (results ++ [("secrets", r.1)])
    else pure results
  let results ← if cfg.enable_iac then do
      let r ← scan_infrastructure cfg repo_path (envs "iac")
      pure (results ++ [("iac", r.1)])
    else pure results
  let results ← if dockerfile_exists && cfg.enable_container then do
      let r ← scan_container cfg (repo_path ++ "/Dockerfile") (envs "container")
      pure (results ++ [("container", r.1)])
    else pure results
  pure results

/-- Plugin roles, as decided by the `isinstance` chain in
`PluginManager.register_plugin` (`ScannerPlugin`, `ReportPlugin`,
`IntegrationPlugin`; any other `BasePlugin` subtype falls through). -/
inductive Role where
  | scanner
  | report
  | integration
  | other
deriving DecidableEq, Repr

/-- A plugin instance (`plugins.py`).  `pid` models Python object identity,
so two registrations of equal-named plugins are distinguishable instances;
`scanRun` is the `ScannerPlugin.scan` coroutine, with `Except.error`
meaning the call raised. -/
structure Plugin where
  name : String
  version : String := "1.0.0"
  role : Role
  supported_file_types : List String := []
  scanRun : String → Except String ScanResult := fun _ => Except.error "not a scanner"
  pid : Nat := 0

/-- Filesystem oracle for `ScannerPlugin.supports_target`: whether the
target is a file, the target's lowercased suffix, and whether a directory
target contains some file matching `*<file_type>` (the `rglob` check). -/
structure FS where
  is_file : String → Bool := fun _ => false
  suffix_lower : String → String := fun _ => ""
  has_match : String → String → Bool := fun _ _ => false

/-- `ScannerPlugin.supports_target`. -/
def supports_target (p : Plugin) (fs : FS) (target : String) : Bool :=
  if p.supported_file_types = [] then true
  else if fs.is_file target then p.supported_file_types.contains (fs.suffix_lower target)
  else p.supported_file_types.any (fun file_type => fs.has_match target file_type)

/-- Python dict assignment `d[k] = v`: replaces the value in place
(preserving insertion order) or appends a new key at the end. -/
def dictSet {β : Type} : List (String × β) → String → β → List (String × β)
  | [], k, v => [(k, v)]
  | (k0, v0) :: rest, k, v =>
    if k0 = k then (k0, v) :: rest else (k0, v0) :: dictSet rest k v

/-- `PluginManager` registry state: the name-keyed `self.plugins` dict and
the three role buckets of `self.plugin_types`. -/
structure PluginRegistry where
  plugins : List (String × Plugin) := []
  scanner_plugins : List Plugin := []
  report_plugins : List Plugin := []
  integration_plugins : List Plugin := []

/-- `PluginManager.register_plugin`: a duplicate name only logs a warning;
the name dict entry is overwritten, then the plugin is appended to its
role bucket (the prior bucket entry is not removed). -/
def register_plugin (m : PluginRegistry) (plugin : Plugin) : PluginRegistry × Bool :=
  let m := { m with plugins := dictSet m.plugins plugin.name plugin }
  let m := match plugin.role with
    | Role.scanner => { m with scanner_plugins := m.scanner_plugins ++ [plugin] }
    | Role.report => { m with report_plugins := m.report_plugins ++ [plugin] }
    | Role.integration => { m with integration_plugins := m.integration_plugins ++ [plugin] }
    | Role.other => m
  (m, true)

/-- `PluginManager.get_plugins_by_type`: `self.plugin_types.get(plugin_type, [])`. -/
def get_plugins_by_type (m : PluginRegistry) (plugin_type : String) : List Plugin :=
  if plugin_type = "scanner" then m.scanner_plugins
  else if plugin_type = "report" then m.report_plugins
  else if plugin_type = "integration" then m.integration_plugins
  else []

/-- `PluginManager._execute_scanner_plugin`: catches every exception from
`plugin.scan` and converts it to `None`. -/
def execute_scanner_plugin (plugin : Plugin) (target : String) : Option ScanResult :=
  match plugin.scanRun target with
  | Except.ok result => some result
  | Except.error _ => none

/-- Plugin selection inside `PluginManager.execute_scanner_plugins`:
scanner-role plugins, filtered by the optional name list (skipped
when the list is `None` or empty, per `if plugin_names:`) and by
`supports_target`. -/
def suitable_plugins (m : PluginRegistry) (target : String)
    (plugin_names : Option (List String)) (fs : FS) : List Plugin :=
  let scanner_plugins := get_plugins_by_type m "scanner"
  let scanner_plugins :=
    match plugin_names with
    | some names =>
        if names = [] then scanner_plugins
        else scanner_plugins.filter (fun p => names.contains p.name)
    | none => scanner_plugins
  scanner_plugins.filter (fun p => supports_target p fs target)

/-- `PluginManager.execute_scanner_plugins`: runs the suitable plugins and
aggregates; the gather loop appends a task's value exactly when it is not
`None` (`elif result:`), and the `isinstance(result, Exception)` arm only
logs, being unreachable because `_execute_scanner_plugin` catches every
exception. -/
def execute_scanner_plugins (m : PluginRegistry) (target : String)
    (plugin_names : Option (List String)) (fs : FS) : List ScanResult :=
  (suitable_plugins m target plugin_names fs).map (fun p => execute_scanner_plugin p target)
    |>.foldl
      (fun results r =>
        match r with
        | some result => results ++ [result]
        | none => results) []

/-- One on-disk cache file: its `st_mtime` and the outcome of opening and
JSON-decoding it (`Except.error` = a corrupt or unreadable file, raising
`JSONDecodeError`/`IOError` on read).  The stored value type is a
parameter, as the Python cache stores arbitrary JSON documents. -/
structure CacheEntry (α : Type) where
  mtime : Int
  content : Except String α
deriving Repr

/-- The cache directory (`CacheManager.cache_dir`): filename-keyed files. -/
structure CacheState (α : Type) where
  files : List (String × CacheEntry α)
deriving Repr

/-- `CacheManager.get_cache_key`: the md5 hexdigest of
`"{scan_type}:{target}:{tool}"`.  `hashlib.md5` is external, so the digest
function is an explicit parameter applied to the colon-joined string. -/
def get_cache_key (md5 : String → String) (scan_type target tool : String) : String :=
  md5 (scan_type ++ ":" ++ target ++ ":" ++ tool)

/-- `CacheManager.is_cache_valid`: the file exists and its age
`now - st_mtime` is strictly below the TTL. -/
def is_cache_valid {α : Type} (ttl now : Int) (st : CacheState α) (cache_file : String) : Bool :=
  match st.files.lookup cache_file with
  | none => false
  | some entry => now - entry.mtime < ttl

/-- Deletion of one cache file (`cache_file.unlink`). -/
def removeFile {α : Type} (files : List (String × CacheEntry α)) (cache_file : String) :
    List (String × CacheEntry α) :=
  files.filter (fun kv => kv.1 != cache_file)

/-- `CacheManager.get_cached_result`: only a valid (existing and fresh)
file is read; a read/decode failure is logged, the corrupted file removed,
and `None` returned.  An invalid (missing or expired) file short-circuits
to `None` without touching the directory.  Returns the result together
with the directory state after the call. -/
def get_cached_result {α : Type} (md5 : String → String) (ttl now : Int)
    (st : CacheState α) (scan_type target tool : String) : Option α × CacheState α :=
  let cache_key := get_cache_key md5 scan_type target tool
  let cache_file := cache_key ++ ".json"
  if is_cache_valid ttl now st cache_file then
    match st.files.lookup cache_file with
    | some entry =>
      match entry.content with
      | Except.ok result => (some result, st)
      | Except.error _ => (none, ⟨removeFile st.files cache_file⟩)
    | none => (none, ⟨removeFile st.files cache_file⟩)
  else (none, st)

/-- `CacheManager.cache_result`: unconditional overwrite of the key's file;
`write_ok = false` models an `IOError` during the write, which is logged
and leaves the directory unchanged. -/
def cache_result {α : Type} (md5 : String → String) (now : Int) (st : CacheState α)
    (scan_type target tool : String) (result : α) (write_ok : Bool) : CacheState α :=
  let cache_file := get_cache_key md5 scan_type target tool ++ ".json"
  if write_ok then ⟨dictSet st.files cache_file ⟨now, Except.ok result⟩⟩ else st

/-- `SecurityMetrics.metrics`, restricted to the counters the scan path
touches, with their initial values. -/
structure Metrics where
  scans_completed : Nat := 0
  vulnerabilities_found : Nat := 0
  vulnerabilities_by_severity : List (String × Nat) :=
    [("CRITICAL", 0), ("HIGH", 0), ("MEDIUM", 0), ("LOW", 0), ("INFO", 0)]
  scan_types : List (String × Nat) :=
    [("sast", 0), ("sca", 0), ("secrets", 0), ("iac", 0), ("container", 0)]
  tools_used : List (String × Nat) := []
  scan_durations : List Int := []
  last_updated : Option String := none
deriving DecidableEq, Repr

/-- `metrics[k] += 1` guarded by `if k in metrics` — a missing key is left
untouched (the key set is fixed at construction). -/
def bumpExisting : List (String × Nat) → String → List (String × Nat)
  | [], _ => []
  | (k0, v0) :: rest, k =>
    if k0 = k then (k0, v0 + 1) :: rest else (k0, v0) :: bumpExisting rest k

/-- `d[k] = d.get(k, 0) + 1` (the `tools_used` update). -/
def bumpOrInsert : List (String × Nat) → String → List (String × Nat)
  | [], k => [(k, 1)]
  | (k0, v0) :: rest, k =>
    if k0 = k then (k0, v0 + 1) :: rest else (k0, v0) :: bumpOrInsert rest k

/-- A vulnerability dict inside a result dict, as read by
`vuln.get("severity", "INFO")`. -/
structure VulnDict where
  severity : Option String := none
deriving DecidableEq, Repr

/-- The dict shape `record_scan_completion` reads from a result value:
`result.get("tool", "unknown")`, `result.get("vulnerabilities", [])` and
`result.get("scan_duration", 0)`. -/
structure ResultDict where
  tool : Option String := none
  vulnerabilities : List VulnDict := []
  scan_duration : Option Int := none
deriving DecidableEq, Repr

/-- A value of the `scan_results` mapping handed to
`record_scan_completion`: either a plain dict, or a `ScanResult` object —
which is what `SecureFlow.scan_repository` actually passes, and which
fails the `isinstance(result, dict)` check. -/
inductive RecVal where
  | dict (d : ResultDict)
  | obj (r : ScanResult)

/-- `SecurityMetrics.record_scan_completion`: bumps `scans_completed` and
`last_updated`, then per entry bumps the category counter and — only when
the value `isinstance(result, dict)` — the tool usage, vulnerability
totals, per-severity counts, and appends a positive scan duration. -/
def record_scan_completion (m : Metrics) (now : String)
    (scan_results : List (String × RecVal)) : Metrics :=
  let m := { m with scans_completed := m.scans_completed + 1, last_updated := some now }
  scan_results.foldl (fun m kv =>
    let m := { m with scan_types := bumpExisting m.scan_types kv.1 }
    match kv.2 with
    | RecVal.dict d =>
      let tool := d.tool.getD "unknown"
      let m := { m with tools_used := bumpOrInsert m.tools_used tool }
      let m := { m with vulnerabilities_found :=
                   m.vulnerabilities_found + d.vulnerabilities.length }
      let by_severity := d.vulnerabilities.foldl
          (fun acc v => bumpExisting acc (v.severity.getD "INFO"))
          m.vulnerabilities_by_severity
      let m := { m with vulnerabilities_by_severity := by_severity }
      let duration := d.scan_duration.getD 0
      if duration > 0 then { m with scan_durations := m.scan_durations ++ [duration] } else m
    | RecVal.obj _ => m) m

/-- The initial `SecurityMetrics()` state. -/
def freshMetrics : Metrics := {}

/-- `SecureFlow.scan_repository` followed by its
`self.metrics.record_scan_completion(results)` call (`core.py` line 91):
the aggregate's values are `ScanResult` objects and are passed as such. -/
def scan_repository_with_metrics (cfg : ScanningConfig) (repo_path : String)
    (envs : String → String → ToolEnv) (dockerfile_exists : Bool)
    (m : Metrics) (now : String) :
    Except String (List (String × ScanResult) × Metrics) := do
  let results ← scan_repository cfg repo_path envs dockerfile_exists
  pure (results,
    record_scan_completion m now (results.map (fun kv => (kv.1, RecVal.obj kv.2))))

/-- C5 counterexample: "WARNING" is not among the five enumerated severity
values, yet `_map_severity` maps it to MEDIUM rather than to the claimed
INFO default. -/
theorem warning_not_mapped_to_info :
    ("WARNING" ∉ ["CRITICAL", "HIGH", "MEDIUM", "LOW", "INFO"]) ∧
    map_severity "WARNING" = Severity.MEDIUM ∧
    map_severity "WARNING" ≠ Severity.INFO :=
  ⟨by decide, by decide, by decide⟩

/-- C5 (amended): `_map_severity` is a total function of the input string,
depends only on its uppercasing (case-insensitive), maps the seven keys of
its fixed table as listed there — in particular "WARNING" to MEDIUM and
"ERROR" to HIGH, both inside {MEDIUM, HIGH, INFO} — and maps every string
whose uppercasing is not a table key to INFO, never dropping a finding. -/
theorem map_severity_fixed_table :
    (∀ s t : String, str_upper s = str_upper t → map_severity s = map_severity t) ∧
    map_severity "CRITICAL" = Severity.CRITICAL ∧
    map_severity "HIGH" = Severity.HIGH ∧
    map_severity "MEDIUM" = Severity.MEDIUM ∧
    map_severity "LOW" = Severity.LOW ∧
    map_severity "INFO" = Severity.INFO ∧
    map_severity "WARNING" = Severity.MEDIUM ∧
    map_severity "ERROR" = Severity.HIGH ∧
    (∀ s : String, severity_map.lookup (str_upper s) = none →
      map_severity s = Severity.INFO) := by
  refine ⟨?_, by decide, by decide, by decide, by decide, by decide, by decide, by decide, ?_⟩
  · intro s t h
    unfold map_severity
    rw [h]
  · intro s h
    unfold map_severity
    rw [h]
    rfl

/-- C5 witness: the amended theorem applied to concrete inputs. -/
theorem map_severity_fixed_table_witness :
    map_severity "Warning" = map_severity "wArNiNg" ∧
    map_severity "nonsense" = Severity.INFO :=
  ⟨map_severity_fixed_table.1 "Warning" "wArNiNg" (by decide),
   map_severity_fixed_table.2.2.2.2.2.2.2.2 "nonsense" (by decide)⟩

/-- C10: the cache key is a digest of the colon-joined triple, so the
distinct triples ("sast","a:b","t") and ("sast:a","b","t") collide under
every digest function, and a result cached under the first triple is
served for the second while it is fresh. -/
theorem get_cache_key_not_injective :
    (("sast", "a:b", "t") ≠ (("sast:a", "b", "t") : String × String × String)) ∧
    (∀ md5 : String → String,
      get_cache_key md5 "sast" "a:b" "t" = get_cache_key md5 "sast:a" "b" "t") ∧
    (∀ (md5 : String → String) (now nowLater ttl : Int) (r : Nat),
      nowLater - now < ttl →
      (get_cached_result md5 ttl nowLater
          (cache_result md5 now ⟨[]⟩ "sast" "a:b" "t" r true) "sast:a" "b" "t").1 = some r) := by
  refine ⟨by decide, fun md5 => rfl, ?_⟩
  intro md5 now nowLater ttl r h
  simp [get_cached_result, cache_result, get_cache_key, is_cache_valid, dictSet,
        List.lookup, h]

/-- C10 witness: the aliasing instance at a concrete digest and clock. -/
theorem get_cache_key_not_injective_witness :
    (get_cached_result (fun s => s) 3600 1
        (cache_result (fun s => s) 0 ⟨[]⟩ "sast" "a:b" "t" 42 true) "sast:a" "b" "t").1 =
      some 42 :=
  get_cache_key_not_injective.2.2 (fun s => s) 0 1 3600 42 (by decide)

/-- The two same-named scanner plugin instances of the re-registration
scenario (`pid` distinguishes the Python objects). -/
def pluginOld : Plugin := { name := "p", role := Role.scanner, pid := 0 }

def pluginNew : Plugin := { name := "p", role := Role.scanner, pid := 1 }

/-- The registry after registering `pluginOld` and then `pluginNew`. -/
def reRegistered : PluginRegistry :=
  (register_plugin (register_plugin {} pluginOld).1 pluginNew).1

/-- C8: re-registering a name replaces the instance in the name-keyed
dict, but `register_plugin` only appends to the role bucket, so
`get_plugins_by_type "scanner"` — the list scanner execution iterates —
still contains the old instance alongside the new one. -/
theorem reregister_keeps_old_in_role_bucket :
    reRegistered.plugins = [("p", pluginNew)] ∧
    get_plugins_by_type reRegistered "scanner" = [pluginOld, pluginNew] :=
  ⟨rfl, rfl⟩

/-- A cache directory holding one entry written at time 0 under the key of
("sast", ".", "semgrep") for the identity digest. -/
def staleCache : CacheState Nat := ⟨[("sast:.:semgrep.json", ⟨0, Except.ok 7⟩)]⟩

/-- C7 counterexample: at time 5000 with TTL 3600 the entry is expired, so
the read returns `None` — but the expired file is NOT deleted: the
directory after the call still holds it, refuting "the offending cache
file is proactively deleted on that read" for expired entries. -/
theorem expired_entry_not_deleted :
    (get_cached_result (fun s => s) 3600 5000 staleCache "sast" "." "semgrep").1 = none ∧
    (get_cached_result (fun s => s) 3600 5000 staleCache "sast" "." "semgrep").2.files =
      [("sast:.:semgrep.json", ⟨0, Except.ok 7⟩)] ∧
    ¬ ((5000 : Int) - 0 < 3600) :=
  ⟨rfl, rfl, by decide⟩

/-- C7 (amended): `get_cached_result` returns a cached value only if the
entry exists, its age is strictly below the TTL and its content reads
back; a fresh-but-corrupt file yields `None` and is deleted on that read;
an expired or missing file yields `None` with the directory untouched
(the expired file is not deleted). -/
theorem get_cached_result_spec {α : Type} (md5 : String → String) (ttl now : Int)
    (st : CacheState α) (scan_type target tool : String) :
    (∀ r : α, (get_cached_result md5 ttl now st scan_type target tool).1 = some r →
      ∃ e : CacheEntry α,
        st.files.lookup (get_cache_key md5 scan_type target tool ++ ".json") = some e ∧
        now - e.mtime < ttl ∧ e.content = Except.ok r) ∧
    (∀ (e : CacheEntry α) (msg : String),
      st.files.lookup (get_cache_key md5 scan_type target tool ++ ".json") = some e →
      now - e.mtime < ttl → e.content = Except.error msg →
      get_cached_result md5 ttl now st scan_type target tool =
        (none, ⟨removeFile st.files (get_cache_key md5 scan_type target tool ++ ".json")⟩)) ∧
    (∀ e : CacheEntry α,
      st.files.lookup (get_cache_key md5 scan_type target tool ++ ".json") = some e →
      ¬ (now - e.mtime < ttl) →
      get_cached_result md5 ttl now st scan_type target tool = (none, st)) ∧
    (st.files.lookup (get_cache_key md5 scan_type target tool ++ ".json") = none →
      get_cached_result md5 ttl now st scan_type target tool = (none, st)) := by
  refine ⟨?_, ?_, ?_, ?_⟩
  · intro r hr
    simp only [get_cached_result, is_cache_valid] at hr
    rcases hl : st.files.lookup (get_cache_key md5 scan_type target tool ++ ".json") with
      _ | e
    · simp [hl] at hr
    · simp only [hl] at hr
      by_cases hfresh : now - e.mtime < ttl
      · rcases hc : e.content with v | v
        · simp [hc, hfresh] at hr
        · simp [hc, hfresh] at hr
          exact ⟨e, rfl, hfresh, by rw [hc, hr]⟩
      · simp [hfresh] at hr
  · intro e msg hl hfresh hc
    simp only [get_cached_result, is_cache_valid]
    simp [hl, hc, hfresh]
  · intro e hl hstale
    simp only [get_cached_result, is_cache_valid]
    simp [hl, hstale]
  · intro hl
    simp only [get_cached_result, is_cache_valid]
    simp [hl]

/-- C7 witness: a fresh corrupt entry is absent and its file removed. -/
theorem get_cached_result_spec_witness :
    get_cached_result (fun s => s) 3600 10
        (⟨[("sast:.:semgrep.json", ⟨0, Except.error "bad"⟩)]⟩ : CacheState Nat)
        "sast" "." "semgrep" =
      (none, ⟨removeFile [("sast:.:semgrep.json", ⟨0, Except.error "bad"⟩)]
                "sast:.:semgrep.json"⟩) :=
  (get_cached_result_spec (fun s => s) 3600 10
      (⟨[("sast:.:semgrep.json", ⟨0, Except.error "bad"⟩)]⟩ : CacheState Nat)
      "sast" "." "semgrep").2.1 ⟨0, Except.error "bad"⟩ "bad" rfl (by decide) rfl

/-- Number of external backend commands launched by one category-scan call. -/
def invocations (r : Except String (ScanResult × List (List String))) : Nat :=
  match r with
  | Except.ok x => x.2.length
  | Except.error _ => 0

/-- C6 counterexample: two successive identical SAST calls with the default
configuration launch the semgrep backend once each — two launches in
total, not at most one: the second call is not served from any cache,
since the scanner never consults the CacheManager. -/
theorem second_scan_invokes_backend_again :
    invocations (scan_source_code defaultScanningConfig "." (fun _ => {})) +
      invocations (scan_source_code defaultScanningConfig "." (fun _ => {})) = 2 ∧
    ¬ (2 ≤ 1) :=
  ⟨rfl, by decide⟩

/-- C6 (amended): `Scanner.scan_source_code` performs no caching — whenever
the configured SAST tool is one of the subprocess-backed tools (semgrep or
bandit), every call launches the backend exactly once, so two successive
calls on the unchanged target launch it twice regardless of any TTL
window. -/
theorem scan_source_code_no_cache (cfg : ScanningConfig) (target : String)
    (envs1 envs2 : String → ToolEnv)
    (h : cfg.sast_tool = "semgrep" ∨ cfg.sast_tool = "bandit") :
    invocations (scan_source_code cfg target envs1) +
      invocations (scan_source_code cfg target envs2) = 2 := by
  have one : ∀ envs : String → ToolEnv, invocations (scan_source_code cfg target envs) = 1 := by
    intro envs
    rcases h with h | h <;> unfold scan_source_code <;> rw [h] <;>
      unfold invocations run_semgrep run_bandit <;> simp
    · cases (envs "semgrep").parse (run_command (envs "semgrep").launch).stdout <;> rfl
    · cases (envs "bandit").parse (run_command (envs "bandit").launch).stdout <;> rfl
  rw [one envs1, one envs2]

/-- C6 witness: the amended theorem at the default configuration. -/
theorem scan_source_code_no_cache_witness :
    invocations (scan_source_code defaultScanningConfig "." (fun _ => ({} : ToolEnv))) +
      invocations (scan_source_code defaultScanningConfig "." (fun _ => ({} : ToolEnv))) = 2 :=
  scan_source_code_no_cache defaultScanningConfig "." (fun _ => {}) (fun _ => {})
    (Or.inl rfl)

/-- A semgrep run whose subprocess launch raises (tool binary missing); its
parser behaves as the real `_parse_semgrep_output` does on the resulting
empty stdout, returning no findings. -/
def launchFailEnv : ToolEnv :=
  { launch := Except.error "No such file or directory: semgrep",
    parse := fun _ => Except.ok [],
    startTime := 0, endTime := 1, nowString := "ts" }

/-- C1 counterexample: a process-launch failure is absorbed inside
`_run_command` (returncode -1, empty stdout), so `_run_semgrep` returns a
result carrying neither `status=failed` nor any `error` metadata — the
claimed failure contract does not hold for this internal failure. -/
theorem launch_failure_not_marked_failed :
    launchFailEnv.launch = Except.error "No such file or directory: semgrep" ∧
    (run_semgrep defaultScanningConfig "." "sast" launchFailEnv).1.metadata.lookup "status" =
      none ∧
    (run_semgrep defaultScanningConfig "." "sast" launchFailEnv).1.metadata.lookup "error" =
      none ∧
    (run_semgrep defaultScanningConfig "." "sast" launchFailEnv).1.vulnerabilities = [] :=
  ⟨rfl, rfl, rfl, rfl⟩

/-- C1 (amended): `_run_semgrep`, `_run_bandit` and `_run_safety` are total
functions of their oracle, and an exception raised inside the try block —
here, the output parser raising — is captured and returned as the error
result: `status=failed`, the message under `error`, no vulnerabilities,
and a duration spanning entry to failure.  (A process-launch failure, by
contrast, is absorbed inside `_run_command` and produces a normal result
with empty findings; see the counterexample.) -/
theorem runner_catches_parse_failure (cfg : ScanningConfig) (target scan_type : String)
    (env : ToolEnv) (e : String)
    (h : env.parse (run_command env.launch).stdout = Except.error e) :
    (run_semgrep cfg target scan_type env).1 =
      create_error_result "semgrep" target scan_type e env ∧
    (run_bandit cfg target scan_type env).1 =
      create_error_result "bandit" target scan_type e env ∧
    (env.req_files ≠ [] →
      (run_safety cfg target scan_type env).1 =
        create_error_result "safety" target scan_type e env) ∧
    (create_error_result "semgrep" target scan_type e env).metadata.lookup "status" =
      some "failed" ∧
    (create_error_result "semgrep" target scan_type e env).metadata.lookup "error" = some e ∧
    (create_error_result "semgrep" target scan_type e env).vulnerabilities = [] ∧
    (create_error_result "semgrep" target scan_type e env).scan_duration =
      env.endTime - env.startTime := by
  refine ⟨?_, ?_, ?_, rfl, rfl, rfl, rfl⟩
  · simp [run_semgrep, h]
  · simp [run_bandit, h]
  · intro hreq
    rcases hf : env.req_files with _ | ⟨f, rest⟩
    · exact absurd hf hreq
    · simp [run_safety, hf, h]

/-- An oracle whose parser raises, with a requirements file present. -/
def parseFailEnv : ToolEnv :=
  { parse := fun _ => Except.error "boom",
    req_files := ["requirements.txt"],
    startTime := 3, endTime := 5, nowString := "ts" }

/-- C1 witness: the amended theorem at a concrete raising parser. -/
theorem runner_catches_parse_failure_witness :
    (run_semgrep defaultScanningConfig "." "sast" parseFailEnv).1 =
      create_error_result "semgrep" "." "sast" "boom" parseFailEnv ∧
    (run_safety defaultScanningConfig "." "sca" parseFailEnv).1 =
      create_error_result "safety" "." "sca" "boom" parseFailEnv ∧
    (create_error_result "semgrep" "." "sast" "boom" parseFailEnv).metadata.lookup "status" =
      some "failed" :=
  ⟨(runner_catches_parse_failure defaultScanningConfig "." "sast" parseFailEnv "boom" rfl).1,
   (runner_catches_parse_failure defaultScanningConfig "." "sca" parseFailEnv "boom"
       rfl).2.2.1 (by decide),
   (runner_catches_parse_failure defaultScanningConfig "." "sast" parseFailEnv "boom"
       rfl).2.2.2.1⟩

/-- A ScanResult is produced by the scanner when one of its backend-tool
runners returns it, for some configuration, target, scan type and run
oracle. -/
def producedByScanner (r : ScanResult) : Prop :=
  (∃ cfg target scan_type env, r = (run_semgrep cfg target scan_type env).1) ∨
  (∃ cfg target scan_type env, r = (run_bandit cfg target scan_type env).1) ∨
  (∃ cfg target scan_type env, r = (run_sonarqube cfg target scan_type env).1) ∨
  (∃ cfg target scan_type env, r = (run_safety cfg target scan_type env).1) ∨
  (∃ cfg target scan_type env, r = (run_pip_audit cfg target scan_type env).1) ∨
  (∃ cfg target scan_type env, r = (run_npm_audit cfg target scan_type env).1) ∨
  (∃ cfg target scan_type env, r = (run_truffhog cfg target scan_type env).1) ∨
  (∃ cfg target scan_type env, r = (run_gitleaks cfg target scan_type env).1) ∨
  (∃ cfg target scan_type env, r = (run_detect_secrets cfg target scan_type env).1) ∨
  (∃ cfg target scan_type env, r = (run_checkov cfg target scan_type env).1) ∨
  (∃ cfg target scan_type env, r = (run_tfsec cfg target scan_type env).1) ∨
  (∃ cfg target scan_type env, r = (run_terrascan cfg target scan_type env).1) ∨
  (∃ cfg target scan_type env, r = (run_trivy cfg target scan_type env).1) ∨
  (∃ cfg target scan_type env, r = (run_clair cfg target scan_type env).1) ∨
  (∃ cfg target scan_type env, r = (run_anchore cfg target scan_type env).1)

/-- C2: every ScanResult the scanner produces with `status=failed` in its
metadata has an empty vulnerability list: a failed result is always built
by `_create_error_result` (empty findings), while successful, empty and
placeholder results never carry `status=failed`. -/
theorem failed_result_has_no_findings (r : ScanResult)
    (hp : producedByScanner r)
    (hf : r.metadata.lookup "status" = some "failed") :
    r.vulnerabilities = [] := by
  rcases hp with ⟨cfg, t, st, env, rfl⟩ | ⟨cfg, t, st, env, rfl⟩ | ⟨cfg, t, st, env, rfl⟩ |
    ⟨cfg, t, st, env, rfl⟩ | ⟨cfg, t, st, env, rfl⟩ | ⟨cfg, t, st, env, rfl⟩ |
    ⟨cfg, t, st, env, rfl⟩ | ⟨cfg, t, st, env, rfl⟩ | ⟨cfg, t, st, env, rfl⟩ |
    ⟨cfg, t, st, env, rfl⟩ | ⟨cfg, t, st, env, rfl⟩ | ⟨cfg, t, st, env, rfl⟩ |
    ⟨cfg, t, st, env, rfl⟩ | ⟨cfg, t, st, env, rfl⟩ | ⟨cfg, t, st, env, rfl⟩
  · cases hparse : env.parse (run_command env.launch).stdout <;>
      simp_all [run_semgrep, create_error_result, List.lookup]
  · cases hparse : env.parse (run_command env.launch).stdout <;>
      simp_all [run_bandit, create_error_result, List.lookup]
  · simp_all [run_sonarqube, List.lookup]
  · rcases hreq : env.req_files with _ | ⟨f, rest⟩
    · simp_all [run_safety, create_empty_result, List.lookup]
    · cases hparse : env.parse (run_command env.launch).stdout <;>
        simp_all [run_safety, create_error_result, List.lookup]
  · cases hparse : env.parse (run_command env.launch).stdout <;>
      simp_all [run_pip_audit, create_error_result, List.lookup]
  · cases hpe : env.path_exists
    · simp_all [run_npm_audit, create_empty_result, List.lookup]
    · cases hparse : env.parse (run_command env.launch).stdout <;>
        simp_all [run_npm_audit, create_error_result, List.lookup]
  · cases hparse : env.parse (run_command env.launch).stdout <;>
      simp_all [run_truffhog, create_error_result, List.lookup]
  · cases hparse : env.parse (run_command env.launch).stdout <;>
      simp_all [run_gitleaks, create_error_result, List.lookup]
  · cases hparse : env.parse (run_command env.launch).stdout <;>
      simp_all [run_detect_secrets, create_error_result, List.lookup]
  · cases hparse : env.parse (run_command env.launch).stdout <;>
      simp_all [run_checkov, create_error_result, List.lookup]
  · cases hparse : env.parse (run_command env.launch).stdout <;>
      simp_all [run_tfsec, create_error_result, List.lookup]
  · cases hparse : env.parse (run_command env.launch).stdout <;>
      simp_all [run_terrascan, create_error_result, List.lookup]
  · cases hparse : env.parse (run_command env.launch).stdout <;>
      simp_all [run_trivy, create_error_result, List.lookup]
  · simp_all [run_clair, List.lookup]
  · simp_all [run_anchore, List.lookup]

/-- C2 witness: a concrete failed semgrep result, produced by the scanner,
has empty findings. -/
theorem failed_result_has_no_findings_witness :
    producedByScanner (run_semgrep defaultScanningConfig "." "sast" parseFailEnv).1 ∧
    (run_semgrep defaultScanningConfig "." "sast" parseFailEnv).1.metadata.lookup "status" =
      some "failed" ∧
    (run_semgrep defaultScanningConfig "." "sast" parseFailEnv).1.vulnerabilities = [] :=
  ⟨Or.inl ⟨defaultScanningConfig, ".", "sast", parseFailEnv, rfl⟩, rfl,
   failed_result_has_no_findings (run_semgrep defaultScanningConfig "." "sast" parseFailEnv).1
     (Or.inl ⟨defaultScanningConfig, ".", "sast", parseFailEnv, rfl⟩) rfl⟩

/-- C4: when the selected, target-supporting scanner plugins are exactly
p1, p2, p3 and exactly p2's scan raises, `execute_scanner_plugins` returns
exactly the two successful results, in order; the failing plugin
contributes no entry (no `None` placeholder) and the call itself returns
normally. -/
theorem one_raising_plugin_is_isolated (m : PluginRegistry) (target : String)
    (plugin_names : Option (List String)) (fs : FS)
    (p1 p2 p3 : Plugin) (r1 r3 : ScanResult) (e : String)
    (hsel : suitable_plugins m target plugin_names fs = [p1, p2, p3])
    (h1 : p1.scanRun target = Except.ok r1)
    (h2 : p2.scanRun target = Except.error e)
    (h3 : p3.scanRun target = Except.ok r3) :
    execute_scanner_plugins m target plugin_names fs = [r1, r3] := by
  unfold execute_scanner_plugins
  rw [hsel]
  simp [execute_scanner_plugin, h1, h2, h3]

/-- Sample results returned by the two succeeding plugins of the witness. -/
def sampleResultA : ScanResult :=
  { tool := "plugin-a", target := ".", scan_type := "custom", vulnerabilities := [],
    scan_duration := 1, timestamp := "ts" }

def sampleResultC : ScanResult :=
  { tool := "plugin-c", target := ".", scan_type := "custom", vulnerabilities := [],
    scan_duration := 1, timestamp := "ts" }

def pluginA : Plugin :=
  { name := "plugin-a", role := Role.scanner,
    scanRun := fun _ => Except.ok sampleResultA, pid := 10 }

def pluginB : Plugin :=
  { name := "plugin-b", role := Role.scanner,
    scanRun := fun _ => Except.error "plugin crash", pid := 11 }

def pluginC : Plugin :=
  { name := "plugin-c", role := Role.scanner,
    scanRun := fun _ => Except.ok sampleResultC, pid := 12 }

/-- Registry holding the three scanner plugins of the witness scenario. -/
def threePluginRegistry : PluginRegistry :=
  (register_plugin (register_plugin (register_plugin {} pluginA).1 pluginB).1 pluginC).1

/-- C4 witness: three registered plugins, the middle one raising, yield
exactly the two successful results. -/
theorem one_raising_plugin_is_isolated_witness :
    execute_scanner_plugins threePluginRegistry "." none {} =
      [sampleResultA, sampleResultC] :=
  one_raising_plugin_is_isolated threePluginRegistry "." none {} pluginA pluginB pluginC
    sampleResultA sampleResultC "plugin crash" rfl rfl rfl rfl

/-- C3: with the default configuration (secrets tool "trufflehog"), every
`scan_repository` call raises `ValueError: Unsupported secrets tool:
trufflehog` — the secrets dispatch table's key is the misspelled
"truffhog" — so no per-category result map is returned, and the iac and
container categories are never reached, for every target, oracle and
Dockerfile state. -/
theorem default_scan_repository_raises (repo_path : String)
    (envs : String → String → ToolEnv) (dockerfile_exists : Bool) :
    scan_repository defaultScanningConfig repo_path envs dockerfile_exists =
      Except.error "Unsupported secrets tool: trufflehog" := rfl

/-- The HIGH-severity finding of the metrics scenario. -/
def highVuln : Vulnerability :=
  { id := "v1", title := "hardcoded password", description := "d",
    severity := Severity.HIGH }

/-- A configuration enabling only the SAST category. -/
def sastOnlyConfig : ScanningConfig :=
  { enable_sca := false, enable_secrets := false, enable_iac := false,
    enable_container := false }

/-- A run oracle whose semgrep parser yields the one HIGH finding, with
scan duration 2. -/
def highFindingEnvs : String → String → ToolEnv := fun _ _ =>
  { parse := fun _ => Except.ok [highVuln], startTime := 0, endTime := 2,
    nowString := "ts" }

/-- The single aggregate entry of that orchestration. -/
def semgrepHighResult : ScanResult :=
  (run_semgrep sastOnlyConfig "." "sast" (highFindingEnvs "sast" "semgrep")).1

/-- C9: `scan_repository` hands its aggregate to `record_scan_completion`
as `ScanResult` objects, which fail the recorder's
`isinstance(result, dict)` check: after an orchestration whose single
category result carries one HIGH vulnerability and a positive duration,
`vulnerabilities_found` is still 0, no severity or tool counter moved and
no duration was sampled — only `scans_completed` and the category counter
changed. -/
theorem metrics_skip_object_results :
    scan_repository_with_metrics sastOnlyConfig "." highFindingEnvs false freshMetrics
        "now" =
      Except.ok ([("sast", semgrepHighResult)],
        { scans_completed := 1,
          vulnerabilities_found := 0,
          vulnerabilities_by_severity :=
            [("CRITICAL", 0), ("HIGH", 0), ("MEDIUM", 0), ("LOW", 0), ("INFO", 0)],
          scan_types :=
            [("sast", 1), ("sca", 0), ("secrets", 0), ("iac", 0), ("container", 0)],
          tools_used := [],
          scan_durations := [],
          last_updated := some "now" }) ∧
    semgrepHighResult.vulnerabilities = [highVuln] ∧
    semgrepHighResult.scan_duration = 2 :=
  ⟨rfl, rfl, rfl⟩

end SecureFlow
